import Mathlib

/-!
Shallow embedding of the covid-19-estimator service
(`src/validator.py`, `src/estimator.py`, `src/estimator_blueprint.py`).

Python numbers (ints and floats) are modelled as exact rationals `ℚ`;
Python `int(x)` is truncation toward zero, modelled by `pyInt`.
Python dicts arriving from JSON are modelled as association lists
`List (String × PyVal)`; truthiness of a JSON value follows Python
(`0`, `""` and `{}` are falsy).  Division on `ℚ` is total with
`x / 0 = 0`, while Python raises `ZeroDivisionError`; every theorem
that touches a division carries the hypotheses that keep the divisor
nonzero on the Python side, so the two semantics agree on the inputs
considered.
-/

/-- Python `int(x)` applied to a real quantity: truncation toward zero. -/
def pyInt (x : ℚ) : ℤ :=
  if 0 ≤ x then ⌊x⌋ else ⌈x⌉

/-- A JSON value as it appears in the request payload. -/
inductive PyVal where
  | num (q : ℚ)
  | str (s : String)
  | dict (entries : List (String × PyVal))
deriving Repr

/-- Python truthiness of a JSON value: `0`, `""` and `{}` are falsy. -/
def PyVal.truthy : PyVal → Bool
  | .num q => q ≠ 0
  | .str s => s ≠ ""
  | .dict es => !es.isEmpty

/-- Python `d[k]` on a dict, `none` when the key is absent (a `KeyError`). -/
def lookup (d : List (String × PyVal)) (k : String) : Option PyVal :=
  (d.find? (fun kv => kv.1 = k)).map (fun kv => kv.2)

/-- The characters Python `str.isspace` recognises (ASCII range). -/
def pyCharIsSpace (c : Char) : Bool :=
  [' ', '\t', '\n', '\x0b', '\x0c', '\r'].contains c

/-- Python `s.isspace()`: true iff `s` is nonempty and every character is
whitespace. -/
def pyIsSpace (s : String) : Bool :=
  !s.toList.isEmpty && s.toList.all pyCharIsSpace

namespace Validator

/-- `Validator.check_empty_values(**formdict)` from `src/validator.py`:
returns `False` as soon as some value of the payload is falsy. -/
def check_empty_values (formdict : List (String × PyVal)) : Bool :=
  formdict.all (fun kv => kv.2.truthy)

/-- `Validator.check_keys(**formdict)` from `src/validator.py`:
`all([formkey for formkey in formdict])`, i.e. every key name is a
truthy (nonempty) string. -/
def check_keys (formdict : List (String × PyVal)) : Bool :=
  formdict.all (fun kv => kv.1 ≠ "")

/-- `Validator.check_valid_keys(*requiredKeys, **formdict)` from
`src/validator.py`.  The source reads
`all([requiredKey in formdict.keys()] for requiredKey in requiredKeys)`:
the generator yields, for each required key, the singleton *list*
`[requiredKey in formdict.keys()]`, and `all` tests the truthiness of
those lists (a nonempty list is truthy), not of the membership tests
inside them.  The embedding keeps that structure faithfully. -/
def check_valid_keys (requiredKeys : List String)
    (formdict : List (String × PyVal)) : Bool :=
  (requiredKeys.map
    (fun requiredKey => [decide (requiredKey ∈ formdict.map (fun kv => kv.1))])).all
    (fun l => !l.isEmpty)

/-- `Validator.checkAbsoluteSpaceCharacters(*fromStrings)` from
`src/validator.py`: true iff some argument satisfies `isspace()`. -/
def checkAbsoluteSpaceCharacters (fromStrings : List String) : Bool :=
  fromStrings.any pyIsSpace

end Validator

namespace Covid19Cases

/-- `Covid19Cases.estimateBestCase` from `src/estimator.py`. -/
def estimateBestCase (reported_cases : ℚ) : ℚ :=
  reported_cases * 10

/-- `Covid19Cases.estimateWorstCase` from `src/estimator.py`. -/
def estimateWorstCase (reported_cases : ℚ) : ℚ :=
  reported_cases * 50

/-- `Covid19Cases.estimateCasesByTime` from `src/estimator.py`.
`2 ** factor` in Python yields a float when `factor` is negative; the
rational power `(2 : ℚ) ^ (factor : ℤ)` matches that exactly. -/
def estimateCasesByTime (period_type : String) (period : ℚ)
    (currently_infected : ℚ) : ℚ :=
  if period_type = "weeks" then
    let days_in_weeks : ℤ := pyInt (period * 7)
    let factor_inWeeks : ℤ := pyInt ((days_in_weeks : ℚ) / 3)
    currently_infected * (2 : ℚ) ^ factor_inWeeks
  else if period_type = "months" then
    let days_in_months : ℤ := pyInt (period * 30)
    let factor_inMonths : ℤ := pyInt ((days_in_months : ℚ) / 3)
    currently_infected * (2 : ℚ) ^ factor_inMonths
  else
    let factor : ℤ := pyInt (period / 3)
    currently_infected * (2 : ℚ) ^ factor

/-- `Covid19Cases.estimatesevereCasesByRequestedTime` from
`src/estimator.py`. -/
def estimatesevereCasesByRequestedTime (infections_by_requested_time : ℚ) : ℚ :=
  15 / 100 * infections_by_requested_time

/-- `Covid19Cases.estimateAvailableHospitalBeds` from `src/estimator.py`. -/
def estimateAvailableHospitalBeds (hospital_beds : ℚ)
    (severe_positive_cases : ℚ) : ℤ :=
  let total_expected_beds : ℚ := 35 / 100 * hospital_beds
  if severe_positive_cases > total_expected_beds then
    pyInt (total_expected_beds - severe_positive_cases)
  else
    pyInt total_expected_beds

/-- `Covid19Cases.estimateSevereCasesRequireIcu` from `src/estimator.py`. -/
def estimateSevereCasesRequireIcu (infections_by_requested_time : ℚ) : ℤ :=
  pyInt (5 / 100 * infections_by_requested_time)

/-- `Covid19Cases.estimateSevereCasesRequireVentilators` from
`src/estimator.py`. -/
def estimateSevereCasesRequireVentilators (infections_by_requested_time : ℚ) : ℤ :=
  pyInt (2 / 100 * infections_by_requested_time)

/-- `Covid19Cases.estimateEconomicLoss` from `src/estimator.py`.
Python raises `ZeroDivisionError` when the divisor is `0`; the `ℚ`
division is total there, and every theorem about this function assumes
a nonzero period. -/
def estimateEconomicLoss (period_type : String) (period : ℚ)
    (avg_population : ℚ) (avg_income : ℚ) (infections : ℚ) : ℤ :=
  if period_type = "weeks" then
    let weeks_to_days : ℚ := period * 7
    pyInt (infections * avg_population * avg_income / weeks_to_days)
  else if period_type = "months" then
    let months_to_days : ℚ := period * 30
    pyInt (infections * avg_population * avg_income / months_to_days)
  else
    let population : ℚ := infections * avg_population
    let daily_income : ℚ := population * avg_income
    pyInt (daily_income / period)

end Covid19Cases

/-- The `region` object of a validated payload (§3 of the data model). -/
structure Region where
  name : String
  avgDailyIncomePopulation : ℚ
  avgDailyIncomeInUSD : ℚ
deriving Repr, DecidableEq

/-- A validated input payload, typed per the fields `estimator` reads. -/
structure InputData where
  periodType : String
  timeToElapse : ℚ
  region : Region
  reportedCases : ℚ
  population : ℚ
  totalHospitalBeds : ℚ
deriving Repr, DecidableEq

/-- One projection block of the estimator output (`impact` or
`severeImpact`), with its seven fields. -/
structure ProjectionBlock where
  currentlyInfected : ℚ
  infectionsByRequestedTime : ℚ
  severeCasesByRequestedTime : ℚ
  hospitalBedsByRequestedTime : ℤ
  casesForICUByRequestedTime : ℤ
  casesForVentilatorsByRequestedTime : ℤ
  dollarsInFlight : ℤ
deriving Repr, DecidableEq

/-- The estimator output: the original data plus the two projection
blocks. -/
structure EstimatorOutput where
  data : InputData
  impact : ProjectionBlock
  severeImpact : ProjectionBlock
deriving Repr, DecidableEq

/-- `estimator(data)` from `src/estimator.py`, following the source
pipeline step by step. -/
def estimator (data : InputData) : EstimatorOutput :=
  let bestCase := Covid19Cases.estimateBestCase data.reportedCases
  let worstCase := Covid19Cases.estimateWorstCase data.reportedCases
  let bestCase_byTime :=
    Covid19Cases.estimateCasesByTime data.periodType data.timeToElapse bestCase
  let worstCase_byTime :=
    Covid19Cases.estimateCasesByTime data.periodType data.timeToElapse worstCase
  let bestCase_severeCases :=
    Covid19Cases.estimatesevereCasesByRequestedTime bestCase_byTime
  let worstCase_severeCases :=
    Covid19Cases.estimatesevereCasesByRequestedTime worstCase_byTime
  let bestCase_avalilableBeds :=
    Covid19Cases.estimateAvailableHospitalBeds data.totalHospitalBeds
      bestCase_severeCases
  let worstCase_avalilableBeds :=
    Covid19Cases.estimateAvailableHospitalBeds data.totalHospitalBeds
      worstCase_severeCases
  let bestCase_requiringICU :=
    Covid19Cases.estimateSevereCasesRequireIcu bestCase_byTime
  let worstCase_requiringICU :=
    Covid19Cases.estimateSevereCasesRequireIcu worstCase_byTime
  let bestCase_Ventilators :=
    Covid19Cases.estimateSevereCasesRequireVentilators bestCase_byTime
  let worstCase_Ventilators :=
    Covid19Cases.estimateSevereCasesRequireVentilators worstCase_byTime
  let bestCase_loss :=
    Covid19Cases.estimateEconomicLoss data.periodType data.timeToElapse
      data.region.avgDailyIncomePopulation data.region.avgDailyIncomeInUSD
      bestCase_byTime
  let worstCase_loss :=
    Covid19Cases.estimateEconomicLoss data.periodType data.timeToElapse
      data.region.avgDailyIncomePopulation data.region.avgDailyIncomeInUSD
      worstCase_byTime
  { data := data
    impact :=
      { currentlyInfected := bestCase
        infectionsByRequestedTime := bestCase_byTime
        severeCasesByRequestedTime := bestCase_severeCases
        hospitalBedsByRequestedTime := bestCase_avalilableBeds
        casesForICUByRequestedTime := bestCase_requiringICU
        casesForVentilatorsByRequestedTime := bestCase_Ventilators
        dollarsInFlight := bestCase_loss }
    severeImpact :=
      { currentlyInfected := worstCase
        infectionsByRequestedTime := worstCase_byTime
        severeCasesByRequestedTime := worstCase_severeCases
        hospitalBedsByRequestedTime := worstCase_avalilableBeds
        casesForICUByRequestedTime := worstCase_requiringICU
        casesForVentilatorsByRequestedTime := worstCase_Ventilators
        dollarsInFlight := worstCase_loss } }

/-- The required form keys of `estimator_endpoint`
(`src/estimator_blueprint.py`). -/
def form_keys : List String :=
  ["periodType", "timeToElapse", "region",
   "reportedCases", "population", "totalHospitalBeds"]

/-- The 400 message of the empty-values check. -/
def emptyValuesMsg : String := "Please provide all values for the form"

/-- The 400 message of the keys-present check. -/
def keysMsg : String := "Please provide all keys for the form"

/-- The 400 message of the valid-keys check. -/
def validKeysMsg : String := "Please provide all valid keys for the form"

/-- The 400 message of the whitespace-only-strings check. -/
def spacesMsg : String := "The form strings values can\x27t be spaces"

/-- `data["region"]["name"]` and `data["periodType"]` as read by
`estimator_endpoint`; `none` models the uncaught `KeyError` /
`TypeError` / `AttributeError` raised when the shapes do not match. -/
def extractFormStrings (data : List (String × PyVal)) :
    Option (String × String) :=
  match lookup data "region" with
  | some (.dict regionDict) =>
    match lookup regionDict "name", lookup data "periodType" with
    | some (.str name), some (.str periodType) => some (name, periodType)
    | _, _ => none
  | _ => none

/-- Outcome of the POST branch of `estimator_endpoint` up to the point
where the estimator arithmetic starts. -/
inductive EndpointResult where
  | badRequest (msg : String)
  | ok
  | crash
deriving Repr, DecidableEq

/-- The validation cascade of the POST branch of `estimator_endpoint`
(`src/estimator_blueprint.py`): the four checks in source order.
`.ok` means control reaches `estimator(data)`; `.crash` models an
uncaught exception while extracting the two strings (a 500, not a 400). -/
def estimator_validate (data : List (String × PyVal)) : EndpointResult :=
  if Validator.check_empty_values data = false then
    .badRequest emptyValuesMsg
  else if Validator.check_keys data = false then
    .badRequest keysMsg
  else if Validator.check_valid_keys form_keys data = false then
    .badRequest validKeysMsg
  else
    match extractFormStrings data with
    | none => .crash
    | some (name, periodType) =>
      if Validator.checkAbsoluteSpaceCharacters [name, periodType] then
        .badRequest spacesMsg
      else
        .ok

lemma pyInt_of_nonneg {x : ℚ} (hx : 0 ≤ x) : pyInt x = ⌊x⌋ := by
  rw [pyInt, if_pos hx]

lemma pyInt_of_neg {x : ℚ} (hx : x < 0) : pyInt x = ⌈x⌉ := by
  rw [pyInt, if_neg (not_le.mpr hx)]

lemma pyInt_mono {x y : ℚ} (h : x ≤ y) : pyInt x ≤ pyInt y := by
  by_cases hx : 0 ≤ x
  · rw [pyInt_of_nonneg hx, pyInt_of_nonneg (le_trans hx h)]
    exact Int.floor_le_floor h
  · by_cases hy : 0 ≤ y
    · rw [pyInt_of_neg (not_le.mp hx), pyInt_of_nonneg hy]
      refine le_trans (Int.ceil_le.mpr ?_) (Int.floor_nonneg.mpr hy)
      exact_mod_cast le_of_not_le hx
    · rw [pyInt_of_neg (not_le.mp hx), pyInt_of_neg (not_le.mp hy)]
      exact Int.ceil_le_ceil h

lemma floor_div_three_floor (x : ℚ) : ⌊((⌊x⌋ : ℚ)) / 3⌋ = ⌊x / 3⌋ := by
  have h1 : ⌊((⌊x⌋ : ℚ)) / 3⌋ = ⌊x⌋ / 3 := by
    have h := Rat.floor_intCast_div_natCast ⌊x⌋ 3
    exact_mod_cast h
  have h2 : ⌊x / 3⌋ = ⌊x⌋ / 3 := by
    apply le_antisymm
    · rw [Int.le_ediv_iff_mul_le (by norm_num : (0:ℤ) < 3), Int.le_floor]
      have h3 := Int.floor_le (x / 3)
      push_cast
      linarith
    · rw [Int.le_floor, le_div_iff₀ (by norm_num : (0:ℚ) < 3)]
      have h3 : (⌊x⌋ / 3) * 3 ≤ ⌊x⌋ :=
        (Int.le_ediv_iff_mul_le (by norm_num : (0:ℤ) < 3)).mp (le_refl _)
      have h4 := Int.floor_le x
      calc ((⌊x⌋ / 3 : ℤ) : ℚ) * 3 = (((⌊x⌋ / 3) * 3 : ℤ) : ℚ) := by push_cast; ring
        _ ≤ ((⌊x⌋ : ℤ) : ℚ) := by exact_mod_cast h3
        _ ≤ x := h4
  rw [h1, h2]

lemma pyInt_pyInt_div_three {x : ℚ} (hx : 0 ≤ x) :
    pyInt ((pyInt x : ℚ) / 3) = ⌊x / 3⌋ := by
  rw [pyInt_of_nonneg hx]
  have hf : (0 : ℚ) ≤ (⌊x⌋ : ℚ) := by exact_mod_cast Int.floor_nonneg.mpr hx
  have h0 : (0 : ℚ) ≤ (⌊x⌋ : ℚ) / 3 := by positivity
  rw [pyInt_of_nonneg h0]
  exact floor_div_three_floor x

/-- The number of days a `(periodType, timeToElapse)` pair denotes, per the
spec: `weeks × 7`, `months × 30`, otherwise the raw value. -/
def normalizedDays (period_type : String) (period : ℚ) : ℚ :=
  if period_type = "weeks" then period * 7
  else if period_type = "months" then period * 30
  else period

/-- C2: for non-negative `timeToElapse` and seed, `estimateCasesByTime`
returns `seed × 2 ^ ⌊days / 3⌋` with `days` normalized from the period
type (`weeks × 7`, `months × 30`, otherwise raw); concretely,
`reportedCases = 10` seeds `currentlyInfected = 100`, three days give
factor 1 and 200 infections, and two weeks give factor 4, a ×16
multiplier. -/
theorem estimateCasesByTime_spec :
    (∀ (pt : String) (t seed : ℚ), 0 ≤ t → 0 ≤ seed →
      Covid19Cases.estimateCasesByTime pt t seed =
        seed * (2 : ℚ) ^ ⌊normalizedDays pt t / 3⌋) ∧
    Covid19Cases.estimateBestCase 10 = 100 ∧
    ⌊normalizedDays "days" 3 / 3⌋ = 1 ∧
    Covid19Cases.estimateCasesByTime "days" 3 100 = 200 ∧
    ⌊normalizedDays "weeks" 2 / 3⌋ = 4 ∧
    Covid19Cases.estimateCasesByTime "weeks" 2 1 = 16 := by
  refine ⟨?_, ?_, ?_, ?_, ?_, ?_⟩
  · intro pt t seed ht _hs
    by_cases hw : pt = "weeks"
    · simp only [Covid19Cases.estimateCasesByTime, normalizedDays, if_pos hw]
      rw [pyInt_pyInt_div_three (by positivity)]
    · by_cases hm : pt = "months"
      · simp only [Covid19Cases.estimateCasesByTime, normalizedDays,
          if_neg hw, if_pos hm]
        rw [pyInt_pyInt_div_three (by positivity)]
      · simp only [Covid19Cases.estimateCasesByTime, normalizedDays,
          if_neg hw, if_neg hm]
        rw [pyInt_of_nonneg (by positivity)]
  · norm_num [Covid19Cases.estimateBestCase]
  · rw [normalizedDays, if_neg (by decide), if_neg (by decide)]
    rw [Int.floor_eq_iff]
    norm_num
  · rw [Covid19Cases.estimateCasesByTime, if_neg (by decide), if_neg (by decide)]
    norm_num [pyInt]
  · rw [normalizedDays, if_pos rfl]
    rw [Int.floor_eq_iff]
    norm_num
  · rw [Covid19Cases.estimateCasesByTime, if_pos rfl]
    norm_num [pyInt]

/-- Witness for the universally quantified part of
`estimateCasesByTime_spec`, at the round-trip input of the claim. -/
theorem estimateCasesByTime_spec_witness :
    Covid19Cases.estimateCasesByTime "days" 3 100 =
      100 * (2 : ℚ) ^ ⌊normalizedDays "days" 3 / 3⌋ :=
  estimateCasesByTime_spec.1 "days" 3 100 (by norm_num) (by norm_num)

/-- C3 counterexample: with `totalHospitalBeds = 1000` and
`severeCases = 350.5` the shortfall branch fires
(`350.5 > expectedBeds = 350`), the code returns the toward-zero
truncation `int(-0.5) = 0`, but the claimed `floor(expectedBeds −
severeCases)` is `-1` — and the returned `0` is not negative either. -/
theorem estimateAvailableHospitalBeds_floor_counterexample :
    Covid19Cases.estimateAvailableHospitalBeds 1000 (701 / 2) = 0 ∧
    ⌊(35 / 100 * 1000 - 701 / 2 : ℚ)⌋ = -1 ∧
    (701 / 2 : ℚ) > 35 / 100 * 1000 := by
  refine ⟨?_, ?_, by norm_num⟩
  · norm_num [Covid19Cases.estimateAvailableHospitalBeds, pyInt]
  · rw [Int.floor_eq_iff]
    norm_num

/-- C3 amended: `expectedBeds = 0.35 × totalHospitalBeds`; when
`severeCases > expectedBeds` the result is the toward-zero truncation
`int(expectedBeds − severeCases)` — nonpositive, but `0` rather than
negative when the shortfall is below one bed — and otherwise
`floor(expectedBeds)`. -/
theorem estimateAvailableHospitalBeds_trunc_spec (hb sc : ℚ)
    (hhb : 0 ≤ hb) (_hsc : 0 ≤ sc) :
    (sc > 35 / 100 * hb →
      Covid19Cases.estimateAvailableHospitalBeds hb sc =
        pyInt (35 / 100 * hb - sc) ∧
      Covid19Cases.estimateAvailableHospitalBeds hb sc ≤ 0) ∧
    (sc ≤ 35 / 100 * hb →
      Covid19Cases.estimateAvailableHospitalBeds hb sc =
        ⌊(35 / 100 * hb : ℚ)⌋) := by
  constructor
  · intro h
    constructor
    · simp only [Covid19Cases.estimateAvailableHospitalBeds, if_pos h]
    · simp only [Covid19Cases.estimateAvailableHospitalBeds, if_pos h]
      rw [pyInt_of_neg (by linarith)]
      exact Int.ceil_le.mpr (by push_cast; linarith)
  · intro h
    simp only [Covid19Cases.estimateAvailableHospitalBeds, if_neg (not_lt.mpr h)]
    exact pyInt_of_nonneg (by positivity)

/-- Witness for `estimateAvailableHospitalBeds_trunc_spec` at the
claim's concrete input `totalHospitalBeds = 1000`, `severeCases = 400`:
the shortfall branch gives `int(350 − 400) = -50`. -/
theorem estimateAvailableHospitalBeds_trunc_spec_witness :
    (Covid19Cases.estimateAvailableHospitalBeds 1000 400 =
        pyInt (35 / 100 * 1000 - 400) ∧
      Covid19Cases.estimateAvailableHospitalBeds 1000 400 ≤ 0) ∧
    Covid19Cases.estimateAvailableHospitalBeds 1000 400 = -50 := by
  constructor
  · exact (estimateAvailableHospitalBeds_trunc_spec 1000 400 (by norm_num)
      (by norm_num)).1 (by norm_num)
  · norm_num [Covid19Cases.estimateAvailableHospitalBeds, pyInt]
    rw [show (-50 : ℚ) = ((-50 : ℤ) : ℚ) by norm_num, Int.ceil_intCast]

/-- C4: on validated inputs (positive period, non-negative region and
infection numbers), `dollarsInFlight` is the floor of
`infections × avgDailyIncomePopulation × avgDailyIncomeInUSD` divided by
the normalized period (`weeks → t×7`, `months → t×30`, else `t`). -/
theorem estimateEconomicLoss_spec (pt : String) (t pop inc inf : ℚ)
    (ht : 0 < t) (hpop : 0 ≤ pop) (hinc : 0 ≤ inc) (hinf : 0 ≤ inf) :
    Covid19Cases.estimateEconomicLoss pt t pop inc inf =
      ⌊inf * pop * inc / normalizedDays pt t⌋ := by
  by_cases hw : pt = "weeks"
  · simp only [Covid19Cases.estimateEconomicLoss, normalizedDays, if_pos hw]
    exact pyInt_of_nonneg
      (div_nonneg (mul_nonneg (mul_nonneg hinf hpop) hinc) (by linarith))
  · by_cases hm : pt = "months"
    · simp only [Covid19Cases.estimateEconomicLoss, normalizedDays,
        if_neg hw, if_pos hm]
      exact pyInt_of_nonneg
        (div_nonneg (mul_nonneg (mul_nonneg hinf hpop) hinc) (by linarith))
    · simp only [Covid19Cases.estimateEconomicLoss, normalizedDays,
        if_neg hw, if_neg hm]
      exact pyInt_of_nonneg
        (div_nonneg (mul_nonneg (mul_nonneg hinf hpop) hinc) ht.le)

/-- Witness for `estimateEconomicLoss_spec` at a concrete validated
input. -/
theorem estimateEconomicLoss_spec_witness :
    Covid19Cases.estimateEconomicLoss "days" 3 (1 / 2) 2 200 =
      ⌊(200 * (1 / 2) * 2 : ℚ) / normalizedDays "days" 3⌋ :=
  estimateEconomicLoss_spec "days" 3 (1 / 2) 2 200 (by norm_num)
    (by norm_num) (by norm_num) (by norm_num)

/-- C8: for every non-negative `reportedCases`, the worst-case
currently-infected estimate is five times the best-case estimate. -/
theorem estimateWorstCase_eq_five_mul_bestCase (r : ℚ) (_h : 0 ≤ r) :
    Covid19Cases.estimateWorstCase r = 5 * Covid19Cases.estimateBestCase r := by
  rw [Covid19Cases.estimateWorstCase, Covid19Cases.estimateBestCase]
  ring

/-- Witness for `estimateWorstCase_eq_five_mul_bestCase` at
`reportedCases = 10`. -/
theorem estimateWorstCase_eq_five_mul_bestCase_witness :
    Covid19Cases.estimateWorstCase 10 = 5 * Covid19Cases.estimateBestCase 10 :=
  estimateWorstCase_eq_five_mul_bestCase 10 (by norm_num)

/-- C9: for a fixed period type and a fixed non-negative seed,
`estimateCasesByTime` is monotonically non-decreasing in
`timeToElapse`. -/
theorem estimateCasesByTime_monotone (pt : String) (seed t₁ t₂ : ℚ)
    (hs : 0 ≤ seed) (h : t₁ ≤ t₂) :
    Covid19Cases.estimateCasesByTime pt t₁ seed ≤
      Covid19Cases.estimateCasesByTime pt t₂ seed := by
  by_cases hw : pt = "weeks"
  · simp only [Covid19Cases.estimateCasesByTime, if_pos hw]
    refine mul_le_mul_of_nonneg_left (zpow_le_zpow_right₀ one_le_two
      (pyInt_mono ?_)) hs
    have hin : pyInt (t₁ * 7) ≤ pyInt (t₂ * 7) := pyInt_mono (by linarith)
    have hc : ((pyInt (t₁ * 7) : ℤ) : ℚ) ≤ ((pyInt (t₂ * 7) : ℤ) : ℚ) := by
      exact_mod_cast hin
    linarith
  · by_cases hm : pt = "months"
    · simp only [Covid19Cases.estimateCasesByTime, if_neg hw, if_pos hm]
      refine mul_le_mul_of_nonneg_left (zpow_le_zpow_right₀ one_le_two
        (pyInt_mono ?_)) hs
      have hin : pyInt (t₁ * 30) ≤ pyInt (t₂ * 30) := pyInt_mono (by linarith)
      have hc : ((pyInt (t₁ * 30) : ℤ) : ℚ) ≤ ((pyInt (t₂ * 30) : ℤ) : ℚ) := by
        exact_mod_cast hin
      linarith
    · simp only [Covid19Cases.estimateCasesByTime, if_neg hw, if_neg hm]
      exact mul_le_mul_of_nonneg_left (zpow_le_zpow_right₀ one_le_two
        (pyInt_mono (by linarith))) hs

/-- Witness for `estimateCasesByTime_monotone`: three days versus six
days on the best-case seed of the round-trip example. -/
theorem estimateCasesByTime_monotone_witness :
    Covid19Cases.estimateCasesByTime "days" 3 100 ≤
      Covid19Cases.estimateCasesByTime "days" 6 100 :=
  estimateCasesByTime_monotone "days" 100 3 6 (by norm_num) (by norm_num)

/-- A well-formed `region` sub-dictionary, used by the concrete
payloads below. -/
def validRegion : List (String × PyVal) :=
  [("name", .str "Kenya"),
   ("avgDailyIncomePopulation", .num (71 / 100)),
   ("avgDailyIncomeInUSD", .num 4)]

/-- A payload with every field valid except that the `reportedCases`
key is absent entirely. -/
def payloadMissingReportedCases : List (String × PyVal) :=
  [("periodType", .str "days"),
   ("timeToElapse", .num 58),
   ("region", .dict validRegion),
   ("population", .num 66622705),
   ("totalHospitalBeds", .num 1380614)]

/-- C1: the code of `check_valid_keys` is a slip.  Its docstring says it
checks the required keys are present, but the `all` ranges over
singleton lists, which are always truthy, so the function returns
`True` on every input.  A payload missing `reportedCases` therefore
passes the whole validation cascade (`.ok`), and the estimator then
hits a `KeyError` (`lookup = none`) instead of a 400. -/
theorem check_valid_keys_bug :
    (∀ (requiredKeys : List String) (formdict : List (String × PyVal)),
      Validator.check_valid_keys requiredKeys formdict = true) ∧
    lookup payloadMissingReportedCases "reportedCases" = none ∧
    Validator.check_valid_keys form_keys payloadMissingReportedCases = true ∧
    estimator_validate payloadMissingReportedCases = .ok := by
  refine ⟨?_, by rfl, by decide, by decide⟩
  intro rk d
  rw [Validator.check_valid_keys, List.all_eq_true]
  intro l hl
  rw [List.mem_map] at hl
  obtain ⟨k, -, rfl⟩ := hl
  rfl

/-- A payload identical to the valid one except `timeToElapse = -3`. -/
def payloadNegativeTime : List (String × PyVal) :=
  [("periodType", .str "days"),
   ("timeToElapse", .num (-3)),
   ("region", .dict
     [("name", .str "Kenya"),
      ("avgDailyIncomePopulation", .num (1 / 2)),
      ("avgDailyIncomeInUSD", .num 2)]),
   ("reportedCases", .num 10),
   ("population", .num 100),
   ("totalHospitalBeds", .num 100)]

/-- The typed view of `payloadNegativeTime`, as the estimator reads it. -/
def negativeTimeInput : InputData :=
  { periodType := "days", timeToElapse := -3,
    region := { name := "Kenya", avgDailyIncomePopulation := 1 / 2,
                avgDailyIncomeInUSD := 2 },
    reportedCases := 10, population := 100, totalHospitalBeds := 100 }

/-- C5 counterexample: a payload with `timeToElapse = -3` (all other
fields valid) is not rejected — `-3` is truthy, so every check passes
and control reaches the estimator, which returns finite numbers
(`infectionsByRequestedTime = 50`, `dollarsInFlight = int(-50/3) = -16`)
with a 200, not a 400. -/
theorem negative_time_passes_validation :
    estimator_validate payloadNegativeTime = .ok ∧
    (estimator negativeTimeInput).impact.infectionsByRequestedTime = 50 ∧
    (estimator negativeTimeInput).impact.dollarsInFlight = -16 := by
  refine ⟨by decide, ?_, ?_⟩
  · show Covid19Cases.estimateCasesByTime "days" (-3)
      (Covid19Cases.estimateBestCase 10) = 50
    rw [show Covid19Cases.estimateBestCase 10 = 100 by
      norm_num [Covid19Cases.estimateBestCase]]
    rw [Covid19Cases.estimateCasesByTime, if_neg (by decide), if_neg (by decide)]
    norm_num [pyInt]
    rw [show ((-1 : ℚ)) = ((-1 : ℤ) : ℚ) by norm_num, Int.ceil_intCast]
    norm_num
  · show Covid19Cases.estimateEconomicLoss "days" (-3) (1 / 2) 2
      (Covid19Cases.estimateCasesByTime "days" (-3)
        (Covid19Cases.estimateBestCase 10)) = -16
    rw [show Covid19Cases.estimateCasesByTime "days" (-3)
        (Covid19Cases.estimateBestCase 10) = 50 by
      rw [show Covid19Cases.estimateBestCase 10 = 100 by
        norm_num [Covid19Cases.estimateBestCase]]
      rw [Covid19Cases.estimateCasesByTime, if_neg (by decide), if_neg (by decide)]
      norm_num [pyInt]
      rw [show ((-1 : ℚ)) = ((-1 : ℤ) : ℚ) by norm_num, Int.ceil_intCast]
      norm_num]
    rw [Covid19Cases.estimateEconomicLoss, if_neg (by decide), if_neg (by decide)]
    norm_num [pyInt]
    rw [Int.ceil_eq_iff]
    norm_num

/-- C5 amended: only `timeToElapse = 0` is caught, and not by a
dedicated arithmetic check but by the empty-values check (`0` is
falsy in Python), which 400s before any division can run. -/
theorem zero_time_rejected (d : List (String × PyVal))
    (h : ("timeToElapse", PyVal.num 0) ∈ d) :
    estimator_validate d = .badRequest emptyValuesMsg := by
  cases hcev : Validator.check_empty_values d with
  | false => rw [estimator_validate, if_pos hcev]
  | true =>
    exfalso
    have htr := List.all_eq_true.mp hcev _ h
    simp [PyVal.truthy] at htr

/-- The valid payload with `timeToElapse` set to `0`. -/
def payloadZeroTime : List (String × PyVal) :=
  [("periodType", .str "days"),
   ("timeToElapse", .num 0),
   ("region", .dict validRegion),
   ("reportedCases", .num 674),
   ("population", .num 66622705),
   ("totalHospitalBeds", .num 1380614)]

/-- Witness for `zero_time_rejected` at the concrete zero-time payload. -/
theorem zero_time_rejected_witness :
    estimator_validate payloadZeroTime = .badRequest emptyValuesMsg :=
  zero_time_rejected payloadZeroTime (by simp [payloadZeroTime])

/-- C6: the POST branch answers with the message of the first failing
check in the fixed order empty-values → keys-present → valid-keys →
whitespace-only strings, and the four messages are pairwise distinct. -/
theorem validation_priority_order :
    (∀ d : List (String × PyVal), Validator.check_empty_values d = false →
      estimator_validate d = .badRequest emptyValuesMsg) ∧
    (∀ d : List (String × PyVal), Validator.check_empty_values d = true →
      Validator.check_keys d = false →
      estimator_validate d = .badRequest keysMsg) ∧
    (∀ d : List (String × PyVal), Validator.check_empty_values d = true →
      Validator.check_keys d = true →
      Validator.check_valid_keys form_keys d = false →
      estimator_validate d = .badRequest validKeysMsg) ∧
    (∀ (d : List (String × PyVal)) (name pt : String),
      Validator.check_empty_values d = true →
      Validator.check_keys d = true →
      Validator.check_valid_keys form_keys d = true →
      extractFormStrings d = some (name, pt) →
      Validator.checkAbsoluteSpaceCharacters [name, pt] = true →
      estimator_validate d = .badRequest spacesMsg) ∧
    (emptyValuesMsg ≠ keysMsg ∧ emptyValuesMsg ≠ validKeysMsg ∧
      emptyValuesMsg ≠ spacesMsg ∧ keysMsg ≠ validKeysMsg ∧
      keysMsg ≠ spacesMsg ∧ validKeysMsg ≠ spacesMsg) := by
  refine ⟨?_, ?_, ?_, ?_, by decide⟩
  · intro d h
    rw [estimator_validate, if_pos h]
  · intro d h1 h2
    rw [estimator_validate, if_neg (by simp [h1]), if_pos h2]
  · intro d h1 h2 h3
    rw [estimator_validate, if_neg (by simp [h1]), if_neg (by simp [h2]),
      if_pos h3]
  · intro d name pt h1 h2 h3 hext h4
    rw [estimator_validate, if_neg (by simp [h1]), if_neg (by simp [h2]),
      if_neg (by simp [h3]), hext]
    simp only [h4, if_true]

/-- A payload failing two checks at once: `timeToElapse = 0` (empty
value) and a whitespace-only `periodType`. -/
def payloadTwoFailures : List (String × PyVal) :=
  [("periodType", .str "   "),
   ("timeToElapse", .num 0),
   ("region", .dict validRegion),
   ("reportedCases", .num 674),
   ("population", .num 66622705),
   ("totalHospitalBeds", .num 1380614)]

/-- Witness for `validation_priority_order`: on a payload failing both
the empty-values check and the whitespace check, the response carries
the empty-values message, the first in priority order. -/
theorem validation_priority_order_witness :
    estimator_validate payloadTwoFailures = .badRequest emptyValuesMsg :=
  validation_priority_order.1 payloadTwoFailures (by decide)

lemma pyIsSpace_iff (s : String) :
    pyIsSpace s = true ↔
      (s.toList ≠ [] ∧ ∀ c ∈ s.toList, pyCharIsSpace c = true) := by
  rw [pyIsSpace, Bool.and_eq_true, List.all_eq_true]
  simp

/-- The valid payload with the region name replaced by three spaces. -/
def payloadSpaceName : List (String × PyVal) :=
  [("periodType", .str "days"),
   ("timeToElapse", .num 58),
   ("region", .dict
     [("name", .str "   "),
      ("avgDailyIncomePopulation", .num (71 / 100)),
      ("avgDailyIncomeInUSD", .num 4)]),
   ("reportedCases", .num 674),
   ("population", .num 66622705),
   ("totalHospitalBeds", .num 1380614)]

/-- C7: `checkAbsoluteSpaceCharacters` returns true exactly when one of
the given strings is nonempty and entirely whitespace, and a payload
whose `region.name` is three spaces (all other fields valid) is
rejected with the space-character message. -/
theorem checkAbsoluteSpaceCharacters_spec :
    (∀ strs : List String,
      Validator.checkAbsoluteSpaceCharacters strs = true ↔
        ∃ s ∈ strs, s.toList ≠ [] ∧ ∀ c ∈ s.toList, pyCharIsSpace c = true) ∧
    estimator_validate payloadSpaceName = .badRequest spacesMsg := by
  constructor
  · intro strs
    rw [Validator.checkAbsoluteSpaceCharacters, List.any_eq_true]
    constructor
    · rintro ⟨s, hs, hsp⟩
      exact ⟨s, hs, (pyIsSpace_iff s).mp hsp⟩
    · rintro ⟨s, hs, hcond⟩
      exact ⟨s, hs, (pyIsSpace_iff s).mpr hcond⟩
  · decide

/-- Witness for `checkAbsoluteSpaceCharacters_spec`: the endpoint's
string pair for the space-name payload triggers the check, and the
three-space string is the witnessing member. -/
theorem checkAbsoluteSpaceCharacters_spec_witness :
    ∃ s ∈ ["   ", "days"],
      s.toList ≠ [] ∧ ∀ c ∈ s.toList, pyCharIsSpace c = true :=
  (checkAbsoluteSpaceCharacters_spec.1 ["   ", "days"]).mp (by decide)

/-- C10: the estimator is deterministic, returns the input unchanged in
its `data` field, and fills the `impact` and `severeImpact` blocks
with the seven specified fields computed from the best-case and
worst-case seeds respectively. -/
theorem estimator_frame :
    (∀ d₁ d₂ : InputData, d₁ = d₂ → estimator d₁ = estimator d₂) ∧
    (∀ d : InputData, (estimator d).data = d) ∧
    (∀ d : InputData,
      (estimator d).impact.currentlyInfected =
        Covid19Cases.estimateBestCase d.reportedCases ∧
      (estimator d).impact.infectionsByRequestedTime =
        Covid19Cases.estimateCasesByTime d.periodType d.timeToElapse
          (Covid19Cases.estimateBestCase d.reportedCases) ∧
      (estimator d).impact.severeCasesByRequestedTime =
        Covid19Cases.estimatesevereCasesByRequestedTime
          ((estimator d).impact.infectionsByRequestedTime) ∧
      (estimator d).impact.hospitalBedsByRequestedTime =
        Covid19Cases.estimateAvailableHospitalBeds d.totalHospitalBeds
          ((estimator d).impact.severeCasesByRequestedTime) ∧
      (estimator d).impact.casesForICUByRequestedTime =
        Covid19Cases.estimateSevereCasesRequireIcu
          ((estimator d).impact.infectionsByRequestedTime) ∧
      (estimator d).impact.casesForVentilatorsByRequestedTime =
        Covid19Cases.estimateSevereCasesRequireVentilators
          ((estimator d).impact.infectionsByRequestedTime) ∧
      (estimator d).impact.dollarsInFlight =
        Covid19Cases.estimateEconomicLoss d.periodType d.timeToElapse
          d.region.avgDailyIncomePopulation d.region.avgDailyIncomeInUSD
          ((estimator d).impact.infectionsByRequestedTime)) ∧
    (∀ d : InputData,
      (estimator d).severeImpact.currentlyInfected =
        Covid19Cases.estimateWorstCase d.reportedCases ∧
      (estimator d).severeImpact.infectionsByRequestedTime =
        Covid19Cases.estimateCasesByTime d.periodType d.timeToElapse
          (Covid19Cases.estimateWorstCase d.reportedCases) ∧
      (estimator d).severeImpact.severeCasesByRequestedTime =
        Covid19Cases.estimatesevereCasesByRequestedTime
          ((estimator d).severeImpact.infectionsByRequestedTime) ∧
      (estimator d).severeImpact.hospitalBedsByRequestedTime =
        Covid19Cases.estimateAvailableHospitalBeds d.totalHospitalBeds
          ((estimator d).severeImpact.severeCasesByRequestedTime) ∧
      (estimator d).severeImpact.casesForICUByRequestedTime =
        Covid19Cases.estimateSevereCasesRequireIcu
          ((estimator d).severeImpact.infectionsByRequestedTime) ∧
      (estimator d).severeImpact.casesForVentilatorsByRequestedTime =
        Covid19Cases.estimateSevereCasesRequireVentilators
          ((estimator d).severeImpact.infectionsByRequestedTime) ∧
      (estimator d).severeImpact.dollarsInFlight =
        Covid19Cases.estimateEconomicLoss d.periodType d.timeToElapse
          d.region.avgDailyIncomePopulation d.region.avgDailyIncomeInUSD
          ((estimator d).severeImpact.infectionsByRequestedTime)) := by
  refine ⟨fun d₁ d₂ h => by rw [h], fun d => rfl, fun d => ?_, fun d => ?_⟩
  · exact ⟨rfl, rfl, rfl, rfl, rfl, rfl, rfl⟩
  · exact ⟨rfl, rfl, rfl, rfl, rfl, rfl, rfl⟩

/-- A concrete valid input for exercising `estimator_frame`. -/
def sampleInput : InputData :=
  { periodType := "days", timeToElapse := 58,
    region := { name := "Kenya", avgDailyIncomePopulation := 71 / 100,
                avgDailyIncomeInUSD := 4 },
    reportedCases := 674, population := 66622705,
    totalHospitalBeds := 1380614 }

/-- Witness for `estimator_frame` at a concrete input. -/
theorem estimator_frame_witness :
    estimator sampleInput = estimator sampleInput ∧
    (estimator sampleInput).data = sampleInput :=
  ⟨estimator_frame.1 sampleInput sampleInput rfl,
   estimator_frame.2.1 sampleInput⟩
